import Mathlib

/-!
Verification development for the kuron duplicate-file deduplication service.

The definitions below are a shallow embedding of the Go source:
`internal/services/scanner.go` (scanner service), `internal/scheduler/scheduler.go`
(cron scheduler), `internal/db/queries.go` and `internal/db/models.go` (durable
store), and `internal/fclones` (engine driver types and progress parsing).

Modelling conventions:
- Go `int64`/`int` are modelled as `Int` (no arithmetic in the claims under
  study overflows, and every claim restates the same expression the code
  computes, so wrap-around is not load-bearing).
- Timestamps (`time.Time`) are integer time units; `CleanupOldData`'s
  `AddDate(0,0,-retentionDays)` is `now - retentionDays` with the unit one day.
- SQL tables are lists of record structures; an `UPDATE ... WHERE id = ?` is a
  `List.map` guarded on the id; a `DELETE ... WHERE p` is `List.filter (¬ p)`;
  SQL `NULL < x` comparisons are false (three-valued logic collapses to
  "row not selected"), modelled on `Option`.
- External collaborators (the fclones child process, the cron parser from
  `robfig/cron`) enter as explicit outcome parameters: the scan task receives a
  `ScanOutcome`, `ExecuteAction` receives the engine call's `Except` result,
  and `runJob` receives the cron parser's result as `Option Int`
  (`none` = parse error, `some t` = the computed next fire time).
- `float64` progress percentages are modelled as `ℚ`.
-/

namespace Kuron

/-- Status of a scan run (`db/models.go`, `ScanRunStatus`). -/
inductive ScanRunStatus
  | running
  | completed
  | failed
  | cancelled
deriving DecidableEq, Repr

/-- Status of a duplicate group (`db/models.go`, `DuplicateGroupStatus`). -/
inductive DuplicateGroupStatus
  | pending
  | processed
  | ignored
deriving DecidableEq, Repr

/-- Status of an action (`db/models.go`, `ActionStatus`). -/
inductive ActionStatus
  | running
  | completed
  | failed
deriving DecidableEq, Repr

/-- Kind of deduplication action (`db/models.go`, `ActionType`). -/
inductive ActionType
  | hardlink
  | reflink
deriving DecidableEq, Repr

/-- The fclones hash record (`internal/fclones/types.go`, `Hash`): one digest
field per supported hash function, empty string when absent. -/
structure Hash where
  blake3 : String
  md5 : String
  sha1 : String
  sha256 : String
deriving DecidableEq, Repr

/-- `Hash.String` from `internal/fclones/types.go` lines 50-64: first
non-empty digest in the order blake3, sha256, sha1, md5; empty string
when all four are empty. -/
def Hash.toString (h : Hash) : String :=
  if h.blake3 ≠ "" then h.blake3
  else if h.sha256 ≠ "" then h.sha256
  else if h.sha1 ≠ "" then h.sha1
  else if h.md5 ≠ "" then h.md5
  else ""

/-- One file inside an engine duplicate group (`fclones.File`). -/
structure FclonesFile where
  path : String
deriving DecidableEq, Repr

/-- One duplicate group in the engine's JSON output (`fclones.Group`). -/
structure Group where
  fileLen : Int
  fileHash : Hash
  files : List FclonesFile
deriving DecidableEq, Repr

/-- Aggregate statistics in the engine's JSON output (`fclones.Stats`). -/
structure Stats where
  filesTotal : Int
  filesMatched : Int
  filesRedundant : Int
  bytesTotal : Int
  bytesMatched : Int
  bytesRedundant : Int
  groupsTotal : Int
deriving DecidableEq, Repr

/-- The engine's `group` output (`fclones.GroupOutput`), header fields other
than stats omitted (no claim mentions them). -/
structure GroupOutput where
  stats : Stats
  groups : List Group
deriving DecidableEq, Repr

/-- Scan options stored with a scan run (`db/queries.go`, `ScanRunOptions`). -/
structure ScanRunOptions where
  minSize : Int
  maxSize : Option Int
  includePatterns : List String
  excludePatterns : List String
  includeHidden : Bool
  followLinks : Bool
  oneFileSystem : Bool
  noIgnore : Bool
  ignoreCase : Bool
  maxDepth : Option Int
deriving DecidableEq, Repr

/-- The Go zero value `ScanRunOptions{}` used when the caller passes nil. -/
def defaultScanRunOptions : ScanRunOptions :=
  { minSize := 0, maxSize := none, includePatterns := [], excludePatterns := [],
    includeHidden := false, followLinks := false, oneFileSystem := false,
    noIgnore := false, ignoreCase := false, maxDepth := none }

/-- A row of the `scan_runs` table (`db/models.go`, `ScanRun`). -/
structure ScanRun where
  id : Int
  scheduledJobId : Option Int
  paths : List String
  options : ScanRunOptions
  status : ScanRunStatus
  startedAt : Int
  completedAt : Option Int
  filesScanned : Int
  bytesScanned : Int
  duplicateGroups : Int
  duplicateFiles : Int
  wastedBytes : Int
  errorMessage : Option String
deriving DecidableEq, Repr

/-- A row of the `duplicate_groups` table (`db/models.go`, `DuplicateGroup`). -/
structure DuplicateGroup where
  id : Int
  scanRunId : Int
  fileHash : String
  fileSize : Int
  fileCount : Int
  wastedBytes : Int
  status : DuplicateGroupStatus
  files : List String
deriving DecidableEq, Repr

/-- A row of the `actions` table (`db/models.go`, `Action`). -/
structure ActionRow where
  id : Int
  scanRunId : Int
  actionType : ActionType
  groupsProcessed : Int
  filesProcessed : Int
  bytesSaved : Int
  dryRun : Bool
  startedAt : Int
  completedAt : Option Int
  status : ActionStatus
  errorMessage : Option String
deriving DecidableEq, Repr

/-- A row of the `scheduled_jobs` table (`db/models.go`, `ScheduledJob`);
scan-option fields not consulted by the scheduler loop are omitted. -/
structure ScheduledJob where
  id : Int
  name : String
  paths : List String
  cronExpression : String
  action : String
  enabled : Bool
  lastRunAt : Option Int
  nextRunAt : Option Int
deriving DecidableEq, Repr

/-- A row of the `daily_stats` table, keyed by day (`db/models.go`). -/
structure DailyStat where
  date : Int
  scansRun : Int
  groupsFound : Int
  filesFound : Int
  bytesWasted : Int
  bytesSaved : Int
deriving DecidableEq, Repr

/-- The durable store: the five tables of §4.A as lists of rows. -/
structure Store where
  scanRuns : List ScanRun
  duplicateGroups : List DuplicateGroup
  actions : List ActionRow
  jobs : List ScheduledJob
  dailyStats : List DailyStat
deriving DecidableEq, Repr

/-- The scanner's in-memory state (`services/scanner.go`, `Scanner`):
`activeScans` is the set of run ids holding a registered cancel handle;
invoking a handle is modelled by recording the run id in `cancelledCtxs`. -/
structure ScannerState where
  store : Store
  activeScans : List Int
  cancelledCtxs : List Int
deriving DecidableEq, Repr

/-! ## Store operations (`db/queries.go`) -/

/-- `CreateScanRun` (`db/queries.go` lines 32-71): unconditionally inserts a
row with status `running` and `started_at = now`; `newId` stands for the
autoincrement id the database assigns. The Go function can only fail on a
database I/O error, which the embedding does not model; in particular it
performs no validation of `paths`. -/
def mkNewScanRun (jobId : Option Int) (paths : List String)
    (opts : Option ScanRunOptions) (now newId : Int) : ScanRun :=
  { id := newId, scheduledJobId := jobId, paths := paths,
    options := opts.getD defaultScanRunOptions,
    status := ScanRunStatus.running, startedAt := now, completedAt := none,
    filesScanned := 0, bytesScanned := 0, duplicateGroups := 0,
    duplicateFiles := 0, wastedBytes := 0, errorMessage := none }

/-- The store after `CreateScanRun`, paired with the returned row. -/
def createScanRun (store : Store) (jobId : Option Int) (paths : List String)
    (opts : Option ScanRunOptions) (now newId : Int) :
    Except String (Store × ScanRun) :=
  let run := mkNewScanRun jobId paths opts now newId
  Except.ok ({ store with scanRuns := store.scanRuns ++ [run] }, run)

/-- `UpdateScanRunProgress` (`db/queries.go` lines 172-181): overwrite the
five counters of the row with the given id; status untouched. -/
def updateScanRunProgress (runs : List ScanRun) (id fs bs dg df wb : Int) :
    List ScanRun :=
  runs.map fun r =>
    if r.id = id then
      { r with filesScanned := fs, bytesScanned := bs, duplicateGroups := dg,
               duplicateFiles := df, wastedBytes := wb }
    else r

/-- `CompleteScanRun` (`db/queries.go` lines 184-191): a plain
`UPDATE scan_runs SET status, completed_at, error_message WHERE id = ?` —
it overwrites unconditionally, whatever the row's current status. -/
def completeScanRun (runs : List ScanRun) (id : Int) (status : ScanRunStatus)
    (now : Int) (errMsg : Option String) : List ScanRun :=
  runs.map fun r =>
    if r.id = id then
      { r with status := status, completedAt := some now, errorMessage := errMsg }
    else r

/-- `UpdateDuplicateGroupStatus` (`db/queries.go`, also `part_008` lines
309-323): no-op on an empty id list, otherwise
`UPDATE duplicate_groups SET status = ? WHERE id IN (…)`. -/
def updateDuplicateGroupStatus (gs : List DuplicateGroup) (ids : List Int)
    (status : DuplicateGroupStatus) : List DuplicateGroup :=
  if ids = [] then gs
  else gs.map fun g => if g.id ∈ ids then { g with status := status } else g

/-- `GetDuplicateGroup` (`db/queries.go`): lookup by id. -/
def getDuplicateGroup (gs : List DuplicateGroup) (id : Int) :
    Option DuplicateGroup :=
  gs.find? fun g => g.id = id

/-- SQL `completed_at < cutoff` on a nullable column: false when NULL. -/
def optTimeLt (t : Option Int) (cutoff : Int) : Bool :=
  match t with
  | none => false
  | some v => decide (v < cutoff)

/-- `CleanupOldData` (`db/queries.go` lines 876-894, also `part_008` lines
680-698). Deletes scan runs with `completed_at < now - retentionDays` and
status ≠ running, actions older than the same cutoff, and daily stats older
than the cutoff. The `duplicate_groups` table is NOT touched: the schema in
`db/models.go` (migration001) declares `scan_run_id INTEGER` with no
`REFERENCES ... ON DELETE CASCADE` and no `PRAGMA foreign_keys` is ever set,
so the comment "cascades to duplicate_groups" in the Go source does not hold
— deleting a run orphans its groups. -/
def cleanupOldData (store : Store) (now retentionDays : Int) : Store :=
  let cutoff := now - retentionDays
  { store with
    scanRuns := store.scanRuns.filter fun r =>
      !(optTimeLt r.completedAt cutoff && decide (r.status ≠ ScanRunStatus.running)),
    actions := store.actions.filter fun a => !(optTimeLt a.completedAt cutoff),
    dailyStats := store.dailyStats.filter fun d => !(decide (d.date < cutoff)) }

/-- `GetEnabledJobs` (`db/queries.go`, also `part_008` lines 418-437):
`WHERE enabled = 1`. The `ORDER BY next_run_at` only affects row order, which
the spawn-set claims do not depend on, so the model keeps input order. -/
def getEnabledJobs (jobs : List ScheduledJob) : List ScheduledJob :=
  jobs.filter fun j => j.enabled

/-- `UpdateJobLastRun` (`db/queries.go`): write `last_run_at` and
`next_run_at` of the job with the given id. -/
def updateJobLastRun (jobs : List ScheduledJob) (id lastRun nextRun : Int) :
    List ScheduledJob :=
  jobs.map fun j =>
    if j.id = id then { j with lastRunAt := some lastRun, nextRunAt := some nextRun }
    else j

/-! ## Scanner service (`services/scanner.go`) -/

/-- The inserted `DuplicateGroup` row a successful scan builds from one
engine group (`services/scanner.go` lines 175-191): file hash via
`Hash.String`, wasted bytes `file_len * (len(files) - 1)`, status pending.
The autoincrement id is not modelled (no claim mentions group ids of
freshly inserted rows), so it is left 0. -/
def mkStoredGroup (runId : Int) (g : Group) : DuplicateGroup :=
  { id := 0, scanRunId := runId, fileHash := Hash.toString g.fileHash,
    fileSize := g.fileLen, fileCount := g.files.length,
    wastedBytes := g.fileLen * ((g.files.length : Int) - 1),
    status := DuplicateGroupStatus.pending,
    files := g.files.map FclonesFile.path }

/-- The group-insertion loop of `runScan` (`services/scanner.go` lines
169-192): iterate the engine's groups in order, skip any group with fewer
than 2 files (`continue`), insert one row for each of the rest. -/
def storeDuplicateGroups (runId : Int) : List Group → List DuplicateGroup
  | [] => []
  | g :: rest =>
    if g.files.length < 2 then storeDuplicateGroups runId rest
    else mkStoredGroup runId g :: storeDuplicateGroups runId rest

/-- The three ways `executor.Group` can come back to the scan task
(`services/scanner.go` lines 153-167): context cancelled, engine error, or
a successful `GroupOutput`. -/
inductive ScanOutcome
  | cancelled
  | failed (msg : String)
  | success (out : GroupOutput)
deriving DecidableEq, Repr

/-- The terminal status each outcome branch of `runScan` records. -/
def terminalStatusOf : ScanOutcome → ScanRunStatus
  | ScanOutcome.cancelled => ScanRunStatus.cancelled
  | ScanOutcome.failed _ => ScanRunStatus.failed
  | ScanOutcome.success _ => ScanRunStatus.completed

/-- The store writes of `runScan`'s outcome branch (`services/scanner.go`
lines 153-211): cancelled → `CompleteScanRun(cancelled, "Scan cancelled")`;
error → `CompleteScanRun(failed, err)`; success → insert the duplicate
groups, write the final counters from the header stats, then
`CompleteScanRun(completed, nil)`. -/
def runScanFinishStore (store : Store) (runId : Int) (outcome : ScanOutcome)
    (now : Int) : Store :=
  match outcome with
  | ScanOutcome.cancelled =>
    { store with scanRuns :=
        (completeScanRun store.scanRuns runId ScanRunStatus.cancelled now
          (some "Scan cancelled")) }
  | ScanOutcome.failed msg =>
    { store with scanRuns :=
        completeScanRun store.scanRuns runId ScanRunStatus.failed now (some msg) }
  | ScanOutcome.success out =>
    { store with
      duplicateGroups := store.duplicateGroups ++ storeDuplicateGroups runId out.groups,
      scanRuns :=
        (completeScanRun
          (updateScanRunProgress store.scanRuns runId out.stats.filesTotal
            out.stats.bytesTotal out.stats.groupsTotal out.stats.filesRedundant
            out.stats.bytesRedundant)
          runId ScanRunStatus.completed now none) }

/-- The tail of the scan task: the outcome branch followed by the deferred
cleanup removing the run's cancel handle from `activeScans`
(`services/scanner.go` lines 116-121). Subscriber queues are not modelled. -/
def runScanFinish (s : ScannerState) (runId : Int) (outcome : ScanOutcome)
    (now : Int) : ScannerState :=
  { store := runScanFinishStore s.store runId outcome now,
    activeScans := s.activeScans.filter fun rid => rid != runId,
    cancelledCtxs := s.cancelledCtxs }

/-- `CancelScan` (`services/scanner.go` lines 217-226): look up the cancel
handle under the read lock; invoke it when present (modelled by recording
the run id in `cancelledCtxs`), otherwise do nothing. It performs no store
write of any kind. -/
def cancelScan (s : ScannerState) (runId : Int) : ScannerState :=
  if runId ∈ s.activeScans then
    { s with cancelledCtxs := runId :: s.cancelledCtxs }
  else s

/-- The group-materialisation loop of `ExecuteAction` (`services/scanner.go`
lines 242-259 and 280-287): fetch each named group, silently skipping ids
the lookup fails on. -/
def lookupGroups (gs : List DuplicateGroup) : List Int → List DuplicateGroup
  | [] => []
  | gid :: rest =>
    match getDuplicateGroup gs gid with
    | none => lookupGroups gs rest
    | some g => g :: lookupGroups gs rest

/-- `CompleteAction` (`db/queries.go`): overwrite the counters, terminal
status and error message of the action row with the given id. -/
def completeAction (actions : List ActionRow) (id : Int)
    (groups files : Int) (bytesSaved : Int) (status : ActionStatus)
    (errMsg : Option String) (now : Int) : List ActionRow :=
  actions.map fun a =>
    if a.id = id then
      { a with groupsProcessed := groups, filesProcessed := files,
               bytesSaved := bytesSaved, completedAt := some now,
               status := status, errorMessage := errMsg }
    else a

/-- `ExecuteAction` (`services/scanner.go` lines 229-297). Inserts an action
row (status running), materialises the selected groups, dispatches to the
engine (`Link` for hardlink, `Dedupe` otherwise — the call's result enters
as `engineResult`, its string being the combined output). On engine failure
the action completes failed and the duplicate groups are untouched. On
success, bytes saved and files processed are summed from the stored groups;
the group statuses are promoted to processed only when `dryRun` is false. -/
def executeAction (store : Store) (runId : Int) (groupIds : List Int)
    (actionType : ActionType) (dryRun : Bool) (actionId now : Int)
    (engineResult : Except String String) : Store :=
  let created : ActionRow :=
    { id := actionId, scanRunId := runId, actionType := actionType,
      groupsProcessed := 0, filesProcessed := 0, bytesSaved := 0,
      dryRun := dryRun, startedAt := now, completedAt := none,
      status := ActionStatus.running, errorMessage := none }
  let store1 := { store with actions := store.actions ++ [created] }
  match engineResult with
  | Except.error e =>
    { store1 with actions :=
        (completeAction store1.actions actionId (groupIds.length : Int) 0 0
          ActionStatus.failed (some e) now) }
  | Except.ok _ =>
    let selected := lookupGroups store1.duplicateGroups groupIds
    let bytesSaved := selected.foldr (fun g acc => g.wastedBytes + acc) 0
    let filesProcessed := selected.foldr (fun g acc => (g.fileCount - 1) + acc) 0
    let groups1 :=
      if dryRun then store1.duplicateGroups
      else updateDuplicateGroupStatus store1.duplicateGroups groupIds
        DuplicateGroupStatus.processed
    { store1 with
      duplicateGroups := groups1,
      actions :=
        (completeAction store1.actions actionId (groupIds.length : Int)
          filesProcessed bytesSaved ActionStatus.completed none now) }

/-! ## Scheduler (`scheduler/scheduler.go`) -/

/-- The due test of `checkJobs` (`scheduler/scheduler.go` line 107):
`now.After(next_run_at) || now.Equal(next_run_at)`; a job with NULL
`next_run_at` is skipped (line 103). -/
def jobDue (now : Int) (j : ScheduledJob) : Bool :=
  match j.nextRunAt with
  | none => false
  | some t => decide (t < now) || decide (t = now)

/-- The spawn loop of `checkJobs` (`scheduler/scheduler.go` lines 102-111):
one `runJob` task per due job, in list order. -/
def checkJobsLoop (now : Int) : List ScheduledJob → List ScheduledJob
  | [] => []
  | j :: rest =>
    if jobDue now j then j :: checkJobsLoop now rest
    else checkJobsLoop now rest

/-- `checkJobs` (`scheduler/scheduler.go` lines 93-112): load the enabled
jobs, spawn one task per due job. The returned list is the multiset of jobs
for which a task was spawned this pass. -/
def checkJobs (jobs : List ScheduledJob) (now : Int) : List ScheduledJob :=
  checkJobsLoop now (getEnabledJobs jobs)

/-- `runJob` (`scheduler/scheduler.go` lines 115-166), restricted to its
writes to the `scheduled_jobs` table. `ctxCancelled` models `ctx.Err() ≠ nil`
on entry, `startScanOk` the outcome of `Scanner.StartScan`, and `cronNext`
the result of `parser.Parse` followed by `Next(now)` (`none` = the cron
expression failed to parse, in which case the function logs and returns
before `UpdateJobLastRun`). -/
def runJob (jobs : List ScheduledJob) (job : ScheduledJob)
    (ctxCancelled startScanOk : Bool) (cronNext : Option Int) (now : Int) :
    List ScheduledJob :=
  if ctxCancelled then jobs
  else if job.paths.length = 0 then jobs
  else if !startScanOk then jobs
  else
    match cronNext with
    | none => jobs
    | some nextRun => updateJobLastRun jobs job.id now nextRun

/-! ## Progress-bar parsing (`fclones/executor.go`, `part_024` lines 380-463) -/

/-- The parsed fields of one progress-bar line (`progressBarInfo`);
`phasePercent` is Go `float64`, modelled as `ℚ`. -/
structure ProgressBarInfo where
  phaseNum : Int
  phaseTotal : Int
  phaseName : String
  phasePercent : ℚ
deriving DecidableEq, Repr

/-- The percent computation of `parseProgressBar` for the current/total
ratio form (`part_024` lines 428-434): `current/total*100`, clamped at 100,
and 0 when the parsed total is not positive. -/
def computePhasePercent (current total : Int) : ℚ :=
  if 0 < total then
    if 100 < (current : ℚ) / (total : ℚ) * 100 then 100
    else (current : ℚ) / (total : ℚ) * 100
  else 0

/-- `parseProgressBar` result for a line in the `current / total` ratio form
(`part_024` lines 401-442), given the numeric values the two captured
strings parse to. -/
def parseProgressBarRatio (phaseNum phaseTotal : Int) (phaseName : String)
    (current total : Int) : ProgressBarInfo :=
  { phaseNum := phaseNum, phaseTotal := phaseTotal, phaseName := phaseName,
    phasePercent := computePhasePercent current total }

/-- `parseProgressBar` result for a scanning-phase line carrying a bare
count with no total (`part_024` lines 444-460): the percent is the
indeterminate sentinel -1. -/
def parseProgressBarScanning (phaseNum phaseTotal : Int) (phaseName : String) :
    ProgressBarInfo :=
  { phaseNum := phaseNum, phaseTotal := phaseTotal, phaseName := phaseName,
    phasePercent := -1 }

/-! ## Concrete sample data, used by the closed evaluation theorems -/

/-- The empty store. -/
def emptyStore : Store :=
  { scanRuns := [], duplicateGroups := [], actions := [], jobs := [],
    dailyStats := [] }

/-- A freshly started scan-run row with the given id. -/
def baseRun (id : Int) : ScanRun :=
  { id := id, scheduledJobId := none, paths := ["/data"],
    options := defaultScanRunOptions, status := ScanRunStatus.running,
    startedAt := 0, completedAt := none, filesScanned := 0, bytesScanned := 0,
    duplicateGroups := 0, duplicateFiles := 0, wastedBytes := 0,
    errorMessage := none }

/-- A pending duplicate-group row. -/
def baseGroup (id runId : Int) : DuplicateGroup :=
  { id := id, scanRunId := runId, fileHash := "h", fileSize := 1000,
    fileCount := 2, wastedBytes := 1000,
    status := DuplicateGroupStatus.pending, files := ["/a", "/b"] }

/-- An engine group with a single file (must not be persisted). -/
def sampleGroup1 : Group :=
  { fileLen := 1000,
    fileHash := { blake3 := "b1", md5 := "", sha1 := "", sha256 := "" },
    files := [{ path := "/a" }] }

/-- An engine group with two files. -/
def sampleGroup2 : Group :=
  { fileLen := 2000,
    fileHash := { blake3 := "b2", md5 := "", sha1 := "", sha256 := "" },
    files := [{ path := "/d" }, { path := "/e" }] }

/-- An engine `GroupOutput` with one undersized and one real group. -/
def sampleOut : GroupOutput :=
  { stats := { filesTotal := 10, filesMatched := 3, filesRedundant := 1,
               bytesTotal := 5000, bytesMatched := 4000, bytesRedundant := 2000,
               groupsTotal := 1 },
    groups := [sampleGroup1, sampleGroup2] }

/-- A scanner state with one running scan (id 1) holding a cancel handle. -/
def sampleState : ScannerState :=
  { store := { emptyStore with scanRuns := [baseRun 1] },
    activeScans := [1], cancelledCtxs := [] }

/-- A store holding a single pending duplicate group with id 5. -/
def sampleStore2 : Store :=
  { emptyStore with
    scanRuns := [baseRun 1],
    duplicateGroups := [baseGroup 5 1] }

/-- The store used by the retention-sweep evaluation: one completed run far
past the retention horizon, owning one duplicate group. -/
def cleanupStore : Store :=
  { emptyStore with
    scanRuns := [{ baseRun 1 with
                   status := ScanRunStatus.completed,
                   completedAt := some 1 }],
    duplicateGroups := [baseGroup 5 1] }

/-- The sample group after promotion to processed. -/
def sampleGroupProcessed : DuplicateGroup :=
  { baseGroup 5 1 with status := DuplicateGroupStatus.processed }

/-- The sample run after the cancelled outcome branch at time 9. -/
def sampleRunEnd : ScanRun :=
  { baseRun 1 with
    status := ScanRunStatus.cancelled,
    completedAt := some 9,
    errorMessage := some "Scan cancelled" }

/-! ## Helper lemmas -/

/-- A row taken from `completeScanRun`'s result that carries the targeted id
has the written terminal status, completion time and error message. -/
theorem mem_completeScanRun {runs : List ScanRun} {id : Int}
    {st : ScanRunStatus} {now : Int} {msg : Option String} {r : ScanRun}
    (hmem : r ∈ completeScanRun runs id st now msg) (hid : r.id = id) :
    r.status = st ∧ r.completedAt = some now := by
  rcases List.mem_map.mp hmem with ⟨r0, _, heq⟩
  by_cases h0 : r0.id = id
  · rw [if_pos h0] at heq
    rw [← heq]
    exact ⟨rfl, rfl⟩
  · rw [if_neg h0] at heq
    subst heq
    exact absurd hid h0

/-- The insertion loop of `runScan` produces exactly the image of the
groups with at least two files, in order. -/
theorem storeDuplicateGroups_eq_filter_map (runId : Int) (groups : List Group) :
    storeDuplicateGroups runId groups
      = (groups.filter fun g => 2 ≤ g.files.length).map (mkStoredGroup runId) := by
  induction groups with
  | nil => rfl
  | cons g rest ih =>
    by_cases h : g.files.length < 2
    · have h2 : ¬ 2 ≤ g.files.length := by omega
      simp [storeDuplicateGroups, h, List.filter_cons, h2, ih]
    · have h2 : 2 ≤ g.files.length := by omega
      simp [storeDuplicateGroups, h, List.filter_cons, h2, ih]

/-- A row taken from `updateDuplicateGroupStatus`'s result whose id is among
the targeted ids carries the written status. -/
theorem status_of_mem_update {gs : List DuplicateGroup} {ids : List Int}
    {st : DuplicateGroupStatus} {g : DuplicateGroup}
    (hmem : g ∈ updateDuplicateGroupStatus gs ids st) (hid : g.id ∈ ids) :
    g.status = st := by
  unfold updateDuplicateGroupStatus at hmem
  by_cases hids : ids = []
  · subst hids
    exact absurd hid (List.not_mem_nil g.id)
  · rw [if_neg hids] at hmem
    rcases List.mem_map.mp hmem with ⟨g0, _, heq⟩
    by_cases h0 : g0.id ∈ ids
    · rw [if_pos h0] at heq
      rw [← heq]
    · rw [if_neg h0] at heq
      subst heq
      exact absurd hid h0

/-- Multiplicity of a job in a list, for the spawn-count statements. -/
def occurrences (j : ScheduledJob) (l : List ScheduledJob) : Nat :=
  (l.filter fun x => x = j).length

/-- Filtering commutes with counting occurrences. -/
theorem occurrences_filter (j : ScheduledJob) (p : ScheduledJob → Bool)
    (l : List ScheduledJob) :
    occurrences j (l.filter p)
      = if p j = true then occurrences j l else 0 := by
  induction l with
  | nil => cases hpj : p j <;> simp [occurrences, hpj]
  | cons x xs ih =>
    by_cases hx : x = j
    · subst hx
      cases hpj : p x <;>
        simp_all [occurrences, List.filter_cons, hpj]
    · cases hpx : p x <;> cases hpj : p j <;>
        simp_all [occurrences, List.filter_cons, hpx, hpj, hx]

/-- The spawn loop is the filter by the due test. -/
theorem checkJobsLoop_eq_filter (now : Int) (l : List ScheduledJob) :
    checkJobsLoop now l = l.filter (jobDue now) := by
  induction l with
  | nil => rfl
  | cons j rest ih =>
    cases h : jobDue now j <;> simp [checkJobsLoop, h, List.filter_cons, ih]

/-! ## Claim theorems -/

/-- Claim C1: on a successful scan the scan task inserts exactly one
pending `DuplicateGroup` row for each engine group with at least two files
— with `wasted_bytes = file_len * (len(files) - 1)` and `file_count` equal
to the number of files — and no row for any smaller group. -/
theorem scan_success_inserts_groups_spec (s : ScannerState) (runId : Int)
    (out : GroupOutput) (now : Int) :
    (runScanFinish s runId (ScanOutcome.success out) now).store.duplicateGroups
        = s.store.duplicateGroups
          ++ (out.groups.filter fun g => 2 ≤ g.files.length).map (mkStoredGroup runId)
    ∧ (∀ g : Group, 2 ≤ g.files.length →
        (mkStoredGroup runId g).status = DuplicateGroupStatus.pending
        ∧ (mkStoredGroup runId g).wastedBytes
            = g.fileLen * ((g.files.length : Int) - 1)
        ∧ (mkStoredGroup runId g).fileCount = g.files.length)
    ∧ (∀ g : Group, g.files.length < 2 → storeDuplicateGroups runId [g] = []) := by
  refine ⟨?_, ?_, ?_⟩
  · show (runScanFinishStore s.store runId (ScanOutcome.success out) now).duplicateGroups = _
    simp [runScanFinishStore, storeDuplicateGroups_eq_filter_map]
  · intro g _
    exact ⟨rfl, rfl, rfl⟩
  · intro g h
    simp [storeDuplicateGroups, h]

/-- Witness for C1 at a concrete scan: one undersized and one real group. -/
theorem scan_success_inserts_groups_witness :
    (runScanFinish sampleState 1 (ScanOutcome.success sampleOut) 7).store.duplicateGroups
        = sampleState.store.duplicateGroups
          ++ (sampleOut.groups.filter fun g => 2 ≤ g.files.length).map (mkStoredGroup 1)
    ∧ (mkStoredGroup 1 sampleGroup2).status = DuplicateGroupStatus.pending :=
  ⟨(scan_success_inserts_groups_spec sampleState 1 sampleOut 7).1,
   ((scan_success_inserts_groups_spec sampleState 1 sampleOut 7).2.1 sampleGroup2
      (by decide)).1⟩

/-- Claim C10: `Hash.String` returns the blake3 digest when non-empty,
otherwise sha256, otherwise sha1, otherwise md5, otherwise the empty
string; and the scan task persists exactly this value as each inserted
`DuplicateGroup`'s `file_hash`. -/
theorem hash_string_fingerprint_spec (h : Hash) :
    (h.blake3 ≠ "" → Hash.toString h = h.blake3)
    ∧ (h.blake3 = "" → h.sha256 ≠ "" → Hash.toString h = h.sha256)
    ∧ (h.blake3 = "" → h.sha256 = "" → h.sha1 ≠ "" → Hash.toString h = h.sha1)
    ∧ (h.blake3 = "" → h.sha256 = "" → h.sha1 = "" → h.md5 ≠ "" →
        Hash.toString h = h.md5)
    ∧ (h.blake3 = "" → h.sha256 = "" → h.sha1 = "" → h.md5 = "" →
        Hash.toString h = "")
    ∧ (∀ runId : Int, ∀ groups : List Group, ∀ row : DuplicateGroup,
        row ∈ storeDuplicateGroups runId groups →
        ∃ src, src ∈ groups ∧ row.fileHash = Hash.toString src.fileHash) := by
  refine ⟨?_, ?_, ?_, ?_, ?_, ?_⟩
  · intro h1; simp [Hash.toString, h1]
  · intro h1 h2; simp [Hash.toString, h1, h2]
  · intro h1 h2 h3; simp [Hash.toString, h1, h2, h3]
  · intro h1 h2 h3 h4; simp [Hash.toString, h1, h2, h3, h4]
  · intro h1 h2 h3 h4; simp [Hash.toString, h1, h2, h3, h4]
  · intro runId groups row hmem
    rw [storeDuplicateGroups_eq_filter_map] at hmem
    rcases List.mem_map.mp hmem with ⟨src, hsrc, heq⟩
    refine ⟨src, List.mem_of_mem_filter hsrc, ?_⟩
    rw [← heq]
    rfl

/-- Witness for C10 at a hash with every digest present. -/
theorem hash_string_fingerprint_witness :
    Hash.toString { blake3 := "bb", md5 := "mm", sha1 := "s1", sha256 := "s2" }
      = "bb" :=
  (hash_string_fingerprint_spec
    { blake3 := "bb", md5 := "mm", sha1 := "s1", sha256 := "s2" }).1 (by decide)

/-- Claim C2: `ExecuteAction` with `dryRun = true` leaves the duplicate
groups untouched (so no status changes), and with `dryRun = false` and a
successful engine call every stored group named in `groupIds` ends with
status processed. -/
theorem executeAction_dry_run_frame_spec (store : Store) (runId : Int)
    (groupIds : List Int) (aType : ActionType) (dryRun : Bool)
    (actionId now : Int) (res : Except String String) :
    (dryRun = true →
      (executeAction store runId groupIds aType dryRun actionId now res).duplicateGroups
        = store.duplicateGroups)
    ∧ (∀ outStr, res = Except.ok outStr → dryRun = false →
        ∀ g, g ∈ (executeAction store runId groupIds aType dryRun actionId now res).duplicateGroups →
          g.id ∈ groupIds → g.status = DuplicateGroupStatus.processed) := by
  constructor
  · intro hdry
    subst hdry
    cases res <;> simp [executeAction]
  · intro outStr hres hdry g hg hid
    subst hres
    subst hdry
    simp only [executeAction, Bool.false_eq_true, if_false] at hg
    exact status_of_mem_update hg hid

/-- Witness for C2: a dry run leaves the sample store's group pending, a
real run promotes it. -/
theorem executeAction_dry_run_frame_witness :
    (executeAction sampleStore2 1 [5] ActionType.hardlink true 9 3
        (Except.ok "o")).duplicateGroups = sampleStore2.duplicateGroups
    ∧ sampleGroupProcessed.status = DuplicateGroupStatus.processed :=
  ⟨(executeAction_dry_run_frame_spec sampleStore2 1 [5] ActionType.hardlink
      true 9 3 (Except.ok "o")).1 rfl,
   (executeAction_dry_run_frame_spec sampleStore2 1 [5] ActionType.hardlink
      false 9 3 (Except.ok "o")).2 "o" rfl rfl sampleGroupProcessed
      (by decide) (by decide)⟩

/-- Claim C3: `CancelScan` never writes to the store — in particular it
never records a terminal scan status. It invokes the run's cancel handle
exactly when the run is in `activeScans` and is a no-op otherwise; the
terminal status is written by the scan task's own outcome branch. -/
theorem cancelScan_no_terminal_write_spec (s : ScannerState) (runId : Int) :
    (cancelScan s runId).store = s.store
    ∧ (runId ∈ s.activeScans →
        cancelScan s runId = { s with cancelledCtxs := runId :: s.cancelledCtxs })
    ∧ (runId ∉ s.activeScans → cancelScan s runId = s)
    ∧ (∀ outcome : ScanOutcome, ∀ now : Int, ∀ r : ScanRun,
        r ∈ (runScanFinish s runId outcome now).store.scanRuns →
        r.id = runId →
        r.status = terminalStatusOf outcome ∧ r.completedAt = some now) := by
  refine ⟨?_, ?_, ?_, ?_⟩
  · by_cases h : runId ∈ s.activeScans <;> simp [cancelScan, h]
  · intro h; simp [cancelScan, h]
  · intro h; simp [cancelScan, h]
  · intro outcome now r hmem hid
    cases outcome <;>
      (simp only [runScanFinish, runScanFinishStore] at hmem;
       exact mem_completeScanRun hmem hid)

/-- Witness for C3 at the sample state: run 1 is active, so cancel invokes
its handle and leaves the store alone; the cancelled branch writes the
terminal row. -/
theorem cancelScan_no_terminal_write_witness :
    (cancelScan sampleState 1).store = sampleState.store
    ∧ cancelScan sampleState 1
        = { sampleState with cancelledCtxs := 1 :: sampleState.cancelledCtxs }
    ∧ (sampleRunEnd.status = terminalStatusOf ScanOutcome.cancelled
        ∧ sampleRunEnd.completedAt = some 9) :=
  ⟨(cancelScan_no_terminal_write_spec sampleState 1).1,
   (cancelScan_no_terminal_write_spec sampleState 1).2.1 (by decide),
   (cancelScan_no_terminal_write_spec sampleState 1).2.2.2 ScanOutcome.cancelled
      9 sampleRunEnd (by decide) (by decide)⟩

/-- Claim C4 (code bug): `CleanupOldData` deletes an out-of-retention
completed scan run, but — contrary to the claim and to the Go source's own
comment "cascades to duplicate_groups" — the run's duplicate groups
survive: the schema declares no foreign key, so nothing cascades. Evaluated
at `now = 1000`, `retentionDays = 30`, one run completed at time 1 owning
one group. -/
theorem cleanupOldData_no_cascade_bug :
    (cleanupOldData cleanupStore 1000 30).scanRuns = []
    ∧ (cleanupOldData cleanupStore 1000 30).duplicateGroups = [baseGroup 5 1]
    ∧ (baseGroup 5 1).scanRunId = 1
    ∧ (∀ store : Store, ∀ now ret : Int, ∀ r : ScanRun,
        r ∈ store.scanRuns → r.status = ScanRunStatus.running →
        r ∈ (cleanupOldData store now ret).scanRuns) := by
  refine ⟨by decide, by decide, rfl, ?_⟩
  intro store now ret r hmem hrun
  unfold cleanupOldData
  refine List.mem_filter.mpr ⟨hmem, ?_⟩
  simp [hrun]

/-- Claim C5: one `checkJobs` pass spawns exactly one `runJob` task per
enabled job whose `next_run_at` is non-null and not after `now`, and none
for disabled jobs or jobs with null or future `next_run_at`. -/
theorem checkJobs_spawn_count_spec (jobs : List ScheduledJob) (now : Int)
    (j : ScheduledJob) :
    occurrences j (checkJobs jobs now)
        = (if j.enabled = true ∧ jobDue now j = true then occurrences j jobs else 0)
    ∧ (jobDue now j = true ↔ ∃ t, j.nextRunAt = some t ∧ t ≤ now) := by
  constructor
  · rw [checkJobs, checkJobsLoop_eq_filter, getEnabledJobs]
    rw [occurrences_filter, occurrences_filter]
    by_cases h1 : j.enabled <;> by_cases h2 : jobDue now j <;> simp [h1, h2]
  · unfold jobDue
    cases hn : j.nextRunAt with
    | none => simp
    | some t =>
      simp only [Bool.or_eq_true, decide_eq_true_eq, Option.some.injEq]
      constructor
      · intro h
        exact ⟨t, rfl, by omega⟩
      · rintro ⟨t2, ht2, hle⟩
        subst ht2
        omega

/-- Claim C6 counterexample: `CreateScanRun` called with an empty paths
list does not fail — it returns ok and inserts a row. -/
theorem createScanRun_empty_paths_cex :
    (createScanRun emptyStore none [] none 5 1).isOk = true
    ∧ (createScanRun emptyStore none [] none 5 1).toOption.map
        (fun p => (p.2.status, p.1.scanRuns.length))
      = some (ScanRunStatus.running, 1) :=
  ⟨rfl, rfl⟩

/-- Claim C6, amended: `CreateScanRun` performs no validation of `paths`;
for every input — the empty list included — it inserts exactly one row with
status running and `started_at = now`, recording the given paths. Empty
paths are rejected by the store's callers, not by the store. -/
theorem createScanRun_always_inserts_spec (store : Store) (jobId : Option Int)
    (paths : List String) (opts : Option ScanRunOptions) (now newId : Int) :
    createScanRun store jobId paths opts now newId
        = Except.ok
            ({ store with
               scanRuns := store.scanRuns ++ [mkNewScanRun jobId paths opts now newId] },
             mkNewScanRun jobId paths opts now newId)
    ∧ (mkNewScanRun jobId paths opts now newId).status = ScanRunStatus.running
    ∧ (mkNewScanRun jobId paths opts now newId).startedAt = now
    ∧ (mkNewScanRun jobId paths opts now newId).paths = paths :=
  ⟨rfl, rfl, rfl, rfl⟩

/-- Claim C7 counterexample: a second `CompleteScanRun` call on an already
completed run is not a data-level no-op — it overwrites the stored status
(here from completed to failed). -/
theorem completeScanRun_second_call_overwrites_cex :
    (completeScanRun
        (completeScanRun [baseRun 1] 1 ScanRunStatus.completed 10 none)
        1 ScanRunStatus.failed 20 (some "boom")).map ScanRun.status
      = [ScanRunStatus.failed]
    ∧ (completeScanRun [baseRun 1] 1 ScanRunStatus.completed 10 none).map
        ScanRun.status
      = [ScanRunStatus.completed] :=
  ⟨rfl, rfl⟩

/-- Claim C7, amended: `CompleteScanRun` is an unconditional overwrite of
status, `completed_at` and `error_message` — the last call wins, so a
subsequent call replaces the earlier terminal record rather than leaving it
unchanged. Data-level idempotence is the caller's responsibility (the scan
task's at-most-once terminal transition). -/
theorem completeScanRun_last_write_wins_spec (runs : List ScanRun) (id : Int)
    (st1 st2 : ScanRunStatus) (t1 t2 : Int) (e1 e2 : Option String) :
    completeScanRun (completeScanRun runs id st1 t1 e1) id st2 t2 e2
      = completeScanRun runs id st2 t2 e2 := by
  induction runs with
  | nil => rfl
  | cons r rest ih =>
    by_cases h : r.id = id <;>
      simp_all [completeScanRun]

/-- Claim C8: when the cron expression fails to parse (`cronNext = none`),
`runJob` writes nothing to the `scheduled_jobs` table — `last_run_at` and
`next_run_at` keep their values, so the next scheduler pass sees the job
unchanged and retries it. -/
theorem runJob_invalid_cron_no_write_spec (jobs : List ScheduledJob)
    (job : ScheduledJob) (ctxCancelled startScanOk : Bool) (now : Int) :
    runJob jobs job ctxCancelled startScanOk none now = jobs := by
  unfold runJob
  cases ctxCancelled <;> cases startScanOk <;>
    by_cases h : job.paths.length = 0 <;> simp [h]

/-- Claim C9: for a progress-bar line in the current/total ratio form with
a positive parsed total, the phase percent equals
`100 * min(current, total) / total`; for a scanning-phase line carrying a
bare count, the percent is the sentinel -1, distinct from every value in
the 0-100 range. -/
theorem progress_percent_spec (pn pt : Int) (nm : String) (current total : Int)
    (pn2 pt2 : Int) (nm2 : String) (h : 0 < total) :
    (parseProgressBarRatio pn pt nm current total).phasePercent
        = 100 * ((min current total : Int) : ℚ) / ((total : Int) : ℚ)
    ∧ (∀ q : ℚ, 0 ≤ q → q ≤ 100 →
        (parseProgressBarScanning pn2 pt2 nm2).phasePercent ≠ q) := by
  constructor
  · show computePhasePercent current total = _
    unfold computePhasePercent
    rw [if_pos h]
    have ht : (0:ℚ) < (total:ℚ) := by exact_mod_cast h
    by_cases hc : current ≤ total
    · have hcq : (current:ℚ) ≤ (total:ℚ) := by exact_mod_cast hc
      have h1 : (current:ℚ) / (total:ℚ) ≤ 1 := (div_le_one ht).mpr hcq
      have hle : ¬ (100 < (current:ℚ) / (total:ℚ) * 100) := by nlinarith
      rw [if_neg hle, min_eq_left hc]
      ring
    · push_neg at hc
      have hcq : (total:ℚ) < (current:ℚ) := by exact_mod_cast hc
      have h1 : (1:ℚ) < (current:ℚ) / (total:ℚ) := (one_lt_div ht).mpr hcq
      have hgt : 100 < (current:ℚ) / (total:ℚ) * 100 := by nlinarith
      rw [if_pos hgt, min_eq_right (le_of_lt hc)]
      rw [mul_div_assoc, div_self (ne_of_gt ht), mul_one]
  · intro q h0 h100 hq
    have hs : (parseProgressBarScanning pn2 pt2 nm2).phasePercent = -1 := rfl
    rw [hs] at hq
    rw [← hq] at h0
    norm_num at h0

/-- Witness for C9: a clamped ratio line (current 5 of total 4) and the
scanning sentinel. -/
theorem progress_percent_witness :
    (parseProgressBarRatio 6 6 "Grouping by contents" 5 4).phasePercent
        = 100 * ((min 5 4 : Int) : ℚ) / (((4 : Int)) : ℚ)
    ∧ (∀ q : ℚ, 0 ≤ q → q ≤ 100 →
        (parseProgressBarScanning 1 6 "Scanning files").phasePercent ≠ q) :=
  progress_percent_spec 6 6 "Grouping by contents" 5 4 1 6 "Scanning files"
    (by norm_num)

end Kuron
